import Mathlib

/-!
Verification of the portfolio page's view-state logic (src/src/App.tsx).

Two mechanisms are embedded here:
* the Visibility Tracker: an association-list model of the `inView` React
  state object and the IntersectionObserver callback that mutates it;
* the Decorative Scene Controller: the Three.js scene state (rotation
  angles, render-surface size, camera aspect), its per-frame `animate`
  tick, the `onWindowResize` handler and the effect cleanup.

Numbers are modelled with exact rationals; DOM elements with opaque
natural-number identifiers; the JS object holding the six visibility
flags with an association list from strings to booleans, so that the
"exactly six keys" invariant is a provable statement rather than a
consequence of a fixed record type.
-/

namespace Portfolio

/-- The six known section identifiers, in the order the `inView` state
object declares them (App.tsx lines 21-28). -/
def sectionKeys : List String :=
  ["summary", "skills", "experience", "projects", "achievements", "education"]

/-- The `inView` state at page load: every known key mapped to `false`. -/
def initialInView : List (String × Bool) :=
  sectionKeys.map (fun k => (k, false))

/-- One IntersectionObserver entry: the observed element's id and its
reported intersecting state. -/
structure ObserverEntry where
  targetId : String
  isIntersecting : Bool
deriving DecidableEq

/-- The JS object spread `{...prev, [k]: b}` for a key `k` already present
in `prev`: the value at `k` is replaced, all other bindings and the key
order are kept. -/
def spreadSet (st : List (String × Bool)) (k : String) (b : Bool) :
    List (String × Bool) :=
  st.map (fun p => if p.1 = k then (k, b) else p)

/-- Processing of a single entry by `observerCallback` (App.tsx lines
32-41): look up the target id; if it is one of the state object's keys,
set that key's flag to the reported intersecting state, otherwise do
nothing. -/
def observerProcessEntry (st : List (String × Bool)) (e : ObserverEntry) :
    List (String × Bool) :=
  if (st.map Prod.fst).contains e.targetId then
    spreadSet st e.targetId e.isIntersecting
  else st

/-- The full `observerCallback`: `entries.forEach`, each entry applying a
functional state update in order. -/
def observerCallback (st : List (String × Bool))
    (entries : List ObserverEntry) : List (String × Bool) :=
  entries.foldl observerProcessEntry st

/-- Every state the page can reach: the initial `inView` object after any
sequence of observer-callback invocations. -/
def runObserver (batches : List (List ObserverEntry)) : List (String × Bool) :=
  batches.foldl observerCallback initialInView

/-- Registration of the six section refs with the observer (App.tsx lines
53-57): `Object.values(sectionRefs).forEach(ref => { if (ref.current)
observer.observe(ref.current) })`. A ref is a pair of the section id and
the optional attached element; the result is the list of elements handed
to `observer.observe`, in order. -/
def observeRegions (refs : List (String × Option Nat)) : List Nat :=
  refs.foldl
    (fun acc r => match r.2 with
      | some el => acc ++ [el]
      | none => acc)
    []

/-- The Three.js scene state: the dodecahedron's two rotation angles, the
render-surface size and the camera aspect ratio. -/
structure SceneState where
  rotX : ℚ
  rotY : ℚ
  width : ℚ
  height : ℚ
  aspect : ℚ
deriving DecidableEq

/-- Scene setup (App.tsx lines 79-84): camera aspect
`window.innerWidth / (window.innerHeight * 0.4)`, renderer size
`(window.innerWidth, window.innerHeight * 0.4)`, rotation angles start
at zero. -/
def setupScene (innerWidth innerHeight : ℚ) : SceneState :=
  { rotX := 0
    rotY := 0
    width := innerWidth
    height := innerHeight * (2 / 5)
    aspect := innerWidth / (innerHeight * (2 / 5)) }

/-- Per-tick rotation increment on the x axis (App.tsx line 126: `+= 0.002`). -/
def rotXStep : ℚ := 2 / 1000

/-- Per-tick rotation increment on the y axis (App.tsx line 127: `+= 0.003`). -/
def rotYStep : ℚ := 3 / 1000

/-- One `animate` tick's effect on the scene state (App.tsx lines 123-130). -/
def animateTick (s : SceneState) : SceneState :=
  { s with rotX := s.rotX + rotXStep, rotY := s.rotY + rotYStep }

/-- The scene state after `n` animation ticks. -/
def animateN (s : SceneState) : Nat → SceneState
  | 0 => s
  | n + 1 => animateTick (animateN s n)

/-- The `onWindowResize` handler (App.tsx lines 133-139): recompute width,
40%-of-height and aspect from the new viewport, leaving the rotation
angles alone. -/
def onWindowResize (s : SceneState) (innerWidth innerHeight : ℚ) : SceneState :=
  let newWidth := innerWidth
  let newHeight := innerHeight * (2 / 5)
  { s with width := newWidth, height := newHeight,
           aspect := newWidth / newHeight }

/-- The observable events of one `animate` tick, in program order. The
render event records the rotation angles the redraw actually uses. -/
inductive AnimEvent where
  | scheduleFrame : AnimEvent
  | updateRotationX : AnimEvent
  | updateRotationY : AnimEvent
  | renderScene : ℚ → ℚ → AnimEvent
deriving DecidableEq

/-- One `animate` tick as a statement-by-statement run (App.tsx lines
123-130): schedule the next frame, increment `rotation.x`, increment
`rotation.y`, then call `renderer.render` on the current state. Returns
the final state and the emitted event trace. -/
def animateTickRun (s : SceneState) : SceneState × List AnimEvent :=
  let e0 := AnimEvent.scheduleFrame
  let s1 := { s with rotX := s.rotX + rotXStep }
  let e1 := AnimEvent.updateRotationX
  let s2 := { s1 with rotY := s1.rotY + rotYStep }
  let e2 := AnimEvent.updateRotationY
  let e3 := AnimEvent.renderScene s2.rotX s2.rotY
  (s2, [e0, e1, e2, e3])

/-- The resources held by the Three.js effect after a successful mount:
the resize listener, the pending animation-frame id, the canvas attached
to the header, and the three disposable GPU resources. -/
structure ThreeResources where
  resizeListenerAttached : Bool
  animationFrameId : Option Nat
  canvasAttached : Bool
  rendererDisposed : Bool
  geometryDisposed : Bool
  materialDisposed : Bool
deriving DecidableEq

/-- The resource state right after a successful mount (listener added,
canvas appended, a frame scheduled, nothing disposed). -/
def mountedResources (frameId : Nat) : ThreeResources :=
  { resizeListenerAttached := true
    animationFrameId := some frameId
    canvasAttached := true
    rendererDisposed := false
    geometryDisposed := false
    materialDisposed := false }

/-- The effect cleanup (App.tsx lines 146-157): remove the resize
listener; cancel the animation frame only if one is recorded; remove the
canvas from the header only if it is attached; then dispose renderer,
geometry and material unconditionally. -/
def cleanupThree (r : ThreeResources) : ThreeResources :=
  let r1 := { r with resizeListenerAttached := false }
  let r2 :=
    match r1.animationFrameId with
    | some _ => { r1 with animationFrameId := none }
    | none => r1
  let r3 := if r2.canvasAttached then { r2 with canvasAttached := false } else r2
  { r3 with rendererDisposed := true, geometryDisposed := true,
            materialDisposed := true }

/-- The `handleScroll` handler (App.tsx lines 162-168): `showBackToTop`
becomes true exactly when `window.scrollY > 300`, and the button is
rendered exactly when `showBackToTop` holds (line 562). -/
def handleScroll (scrollY : ℚ) : Bool :=
  if scrollY > 300 then true else false

/-- The mobile-menu toggle button (App.tsx line 223):
`setIsMobileMenuOpen(!isMobileMenuOpen)`. -/
def toggleMobileMenu (isOpen : Bool) : Bool := !isOpen

/-- A mobile-menu link click (App.tsx line 251): `setIsMobileMenuOpen(false)`
regardless of the current state. -/
def mobileLinkClick (_isOpen : Bool) : Bool := false

/-! ## Helper lemmas -/

/-- `spreadSet` never adds or removes a key. -/
theorem spreadSet_keys (st : List (String × Bool)) (k : String) (b : Bool) :
    (spreadSet st k b).map Prod.fst = st.map Prod.fst := by
  induction st with
  | nil => rfl
  | cons a t ih =>
    simp only [spreadSet, List.map_cons] at ih ⊢
    rw [ih]
    by_cases h : a.1 = k <;> simp [h]

/-- `spreadSet` stores the new value at the target key, provided the key is
present. -/
theorem lookup_spreadSet_self (st : List (String × Bool)) (k : String) (b : Bool)
    (hk : k ∈ st.map Prod.fst) :
    (spreadSet st k b).lookup k = some b := by
  induction st with
  | nil => simp at hk
  | cons a t ih =>
    show List.lookup k ((if a.1 = k then (k, b) else a) :: spreadSet t k b) = some b
    by_cases h : a.1 = k
    · rw [if_pos h]
      simp [List.lookup]
    · rw [if_neg h]
      have hk' : k ∈ t.map Prod.fst := by
        simp only [List.map_cons, List.mem_cons] at hk
        rcases hk with h1 | h2
        · exact absurd h1.symm h
        · exact h2
      have hbeq : (k == a.1) = false :=
        beq_eq_false_iff_ne.mpr (fun he => h he.symm)
      simp [List.lookup, hbeq]
      exact ih hk'

/-- `spreadSet` leaves every other key's value unchanged. -/
theorem lookup_spreadSet_ne (st : List (String × Bool)) (k k' : String) (b : Bool)
    (h : k' ≠ k) :
    (spreadSet st k b).lookup k' = st.lookup k' := by
  induction st with
  | nil => rfl
  | cons a t ih =>
    show List.lookup k' ((if a.1 = k then (k, b) else a) :: spreadSet t k b) =
      List.lookup k' (a :: t)
    by_cases hak : a.1 = k
    · rw [if_pos hak]
      have h1 : (k' == k) = false := beq_eq_false_iff_ne.mpr h
      have h2 : (k' == a.1) = false := by rw [hak]; exact h1
      simp [List.lookup, h1, h2, ih]
    · rw [if_neg hak]
      cases hbeq : k' == a.1 <;> simp [List.lookup, hbeq, ih]

/-- Processing one observer entry never adds or removes a key. -/
theorem observerProcessEntry_keys (st : List (String × Bool)) (e : ObserverEntry) :
    (observerProcessEntry st e).map Prod.fst = st.map Prod.fst := by
  unfold observerProcessEntry
  split
  · exact spreadSet_keys st e.targetId e.isIntersecting
  · rfl

/-- A whole observer-callback invocation never adds or removes a key. -/
theorem observerCallback_keys (st : List (String × Bool))
    (es : List ObserverEntry) :
    (observerCallback st es).map Prod.fst = st.map Prod.fst := by
  induction es generalizing st with
  | nil => rfl
  | cons e t ih =>
    show (observerCallback (observerProcessEntry st e) t).map Prod.fst = _
    rw [ih, observerProcessEntry_keys]

/-- Folding any batch sequence through the callback preserves the key set. -/
theorem runBatches_keys (st : List (String × Bool))
    (bs : List (List ObserverEntry)) :
    (bs.foldl observerCallback st).map Prod.fst = st.map Prod.fst := by
  induction bs generalizing st with
  | nil => rfl
  | cons b t ih =>
    show (t.foldl observerCallback (observerCallback st b)).map Prod.fst = _
    rw [ih, observerCallback_keys]

/-- The rotation angle on the x axis after `n` ticks. -/
theorem animateN_rotX (s : SceneState) (n : Nat) :
    (animateN s n).rotX = s.rotX + n * rotXStep := by
  induction n with
  | zero => simp [animateN]
  | succ m ih =>
    show (animateTick (animateN s m)).rotX = _
    simp only [animateTick, ih]
    push_cast
    ring

/-- The rotation angle on the y axis after `n` ticks. -/
theorem animateN_rotY (s : SceneState) (n : Nat) :
    (animateN s n).rotY = s.rotY + n * rotYStep := by
  induction n with
  | zero => simp [animateN]
  | succ m ih =>
    show (animateTick (animateN s m)).rotY = _
    simp only [animateTick, ih]
    push_cast
    ring

/-! ## Claim theorems -/

/-- C1: for every one of the six known section identifiers `k` and every
reported intersection state `b`, processing an observer entry for `k` on a
state with the six known keys sets `k`'s flag to `b` and leaves every
other key's flag unchanged. -/
theorem observer_sets_exactly_target_flag (st : List (String × Bool))
    (k : String) (b : Bool)
    (hkeys : st.map Prod.fst = sectionKeys) (hk : k ∈ sectionKeys) :
    (observerProcessEntry st ⟨k, b⟩).lookup k = some b ∧
      ∀ k', k' ≠ k →
        (observerProcessEntry st ⟨k, b⟩).lookup k' = st.lookup k' := by
  have hmem : k ∈ st.map Prod.fst := by rw [hkeys]; exact hk
  have hguard : (st.map Prod.fst).contains k = true := by
    simpa using hmem
  constructor
  · show (observerProcessEntry st ⟨k, b⟩).lookup k = some b
    unfold observerProcessEntry
    rw [if_pos hguard]
    exact lookup_spreadSet_self st k b hmem
  · intro k' hne
    unfold observerProcessEntry
    rw [if_pos hguard]
    exact lookup_spreadSet_ne st k k' b hne

/-- Witness for C1: marking `skills` visible on the initial state sets its
flag to true and leaves `summary` untouched. -/
theorem observer_sets_exactly_target_flag_witness :
    (observerProcessEntry initialInView ⟨"skills", true⟩).lookup "skills" =
        some true ∧
      (observerProcessEntry initialInView ⟨"skills", true⟩).lookup "summary" =
        initialInView.lookup "summary" :=
  ⟨(observer_sets_exactly_target_flag initialInView "skills" true
      (by decide) (by decide)).1,
    (observer_sets_exactly_target_flag initialInView "skills" true
      (by decide) (by decide)).2 "summary" (by decide)⟩

/-- C2: at setup the render surface is sized to (W, H×0.4) with camera
aspect W/(H×0.4); after a resize to (W′, H′) the surface is (W′, H′×0.4)
and the aspect W′/(H′×0.4), and these already hold at the very next
animation tick (no debounce, no throttling). -/
theorem surface_size_and_aspect (W H Wp Hp : ℚ) (s : SceneState) :
    (setupScene W H).width = W ∧
      (setupScene W H).height = H * (2 / 5) ∧
      (setupScene W H).aspect = W / (H * (2 / 5)) ∧
      (onWindowResize s Wp Hp).width = Wp ∧
      (onWindowResize s Wp Hp).height = Hp * (2 / 5) ∧
      (onWindowResize s Wp Hp).aspect = Wp / (Hp * (2 / 5)) ∧
      (animateTick (onWindowResize s Wp Hp)).width = Wp ∧
      (animateTick (onWindowResize s Wp Hp)).height = Hp * (2 / 5) ∧
      (animateTick (onWindowResize s Wp Hp)).aspect = Wp / (Hp * (2 / 5)) :=
  ⟨rfl, rfl, rfl, rfl, rfl, rfl, rfl, rfl, rfl⟩

/-- C3: starting from the freshly set-up scene (both angles zero), after
`n` ticks the angles are exactly `n * 0.002` and `n * 0.003`, and the
y-axis step is the larger one. -/
theorem rotation_after_n_ticks (W H : ℚ) (n : Nat) :
    (animateN (setupScene W H) n).rotX = n * rotXStep ∧
      (animateN (setupScene W H) n).rotY = n * rotYStep ∧
      rotXStep < rotYStep := by
  refine ⟨?_, ?_, by norm_num [rotXStep, rotYStep]⟩
  · rw [animateN_rotX]
    show (setupScene W H).rotX + _ = _
    simp [setupScene]
  · rw [animateN_rotY]
    show (setupScene W H).rotY + _ = _
    simp [setupScene]

/-- C4: after the cleanup runs on any resource state — the mounted one or
one where the surface was never attached — no frame callback remains
scheduled, the canvas is detached, and renderer, geometry and material
are all disposed. -/
theorem cleanup_releases_everything (r : ThreeResources) :
    (cleanupThree r).animationFrameId = none ∧
      (cleanupThree r).canvasAttached = false ∧
      (cleanupThree r).rendererDisposed = true ∧
      (cleanupThree r).geometryDisposed = true ∧
      (cleanupThree r).materialDisposed = true := by
  unfold cleanupThree
  rcases h : r.animationFrameId with _ | id <;>
    rcases hc : r.canvasAttached <;> simp [h, hc]

/-- C5 counterexample: at scroll position exactly 300 the threshold `p ≥
300` of the claim is met, yet the code's `scrollY > 300` test leaves the
back-to-top control absent. -/
theorem backToTop_at_300_absent :
    (300 : ℚ) ≥ 300 ∧ handleScroll 300 = false :=
  ⟨le_refl _, by norm_num [handleScroll]⟩

/-- C5 (amended): the back-to-top control is present exactly when the
scroll position is strictly above 300 pixels; at exactly 300 it is
absent, so the boundary is pinned to the absent side. -/
theorem backToTop_threshold (p : ℚ) :
    handleScroll p = true ↔ p > 300 := by
  unfold handleScroll
  split <;> simp_all

/-- C6: an observer entry whose identifier is outside the six known keys
leaves the state entirely unchanged. -/
theorem observer_unknown_id_noop (st : List (String × Bool)) (k : String)
    (b : Bool)
    (hkeys : st.map Prod.fst = sectionKeys) (hk : k ∉ sectionKeys) :
    observerProcessEntry st ⟨k, b⟩ = st := by
  have hguard : (st.map Prod.fst).contains k = false := by
    rw [hkeys]
    simpa using hk
  unfold observerProcessEntry
  rw [if_neg (by rw [hguard]; simp)]

/-- Witness for C6: an entry for the unknown identifier `footer` leaves
the initial state unchanged. -/
theorem observer_unknown_id_noop_witness :
    observerProcessEntry initialInView ⟨"footer", true⟩ = initialInView :=
  observer_unknown_id_noop initialInView "footer" true (by decide) (by decide)

/-- C7: `inView` is created with exactly the six known keys, all false,
and every reachable state (any sequence of observer-callback batches)
still has exactly those six keys in order: no key is ever added or
removed. -/
theorem sectionVisibility_keys_invariant :
    initialInView.map Prod.fst = sectionKeys ∧
      (initialInView.all fun p => p.2 == false) = true ∧
      ∀ batches : List (List ObserverEntry),
        (runObserver batches).map Prod.fst = sectionKeys := by
  refine ⟨by decide, by decide, ?_⟩
  intro batches
  show (batches.foldl observerCallback initialInView).map Prod.fst = sectionKeys
  rw [runBatches_keys]
  decide

/-- C8: within a single `animate` tick, both rotation-angle updates occur
at trace positions strictly before the redraw, the redraw occurs nowhere
earlier, and the redraw uses the already-updated angles. -/
theorem rotation_updates_before_render (s : SceneState) :
    (animateTickRun s).1 = animateTick s ∧
      (animateTickRun s).2.get? 1 = some AnimEvent.updateRotationX ∧
      (animateTickRun s).2.get? 2 = some AnimEvent.updateRotationY ∧
      (animateTickRun s).2.get? 3 =
        some (AnimEvent.renderScene (animateTick s).rotX (animateTick s).rotY) ∧
      ∀ i a b, (animateTickRun s).2.get? i =
        some (AnimEvent.renderScene a b) → 3 ≤ i := by
  refine ⟨rfl, rfl, rfl, rfl, ?_⟩
  intro i a b h
  match i with
  | 0 => simp [animateTickRun] at h
  | 1 => simp [animateTickRun] at h
  | 2 => simp [animateTickRun] at h
  | 3 => exact le_refl 3
  | n + 4 => simp [animateTickRun] at h

/-- Witness for C8: on a concrete scene, the render event of one tick sits
at index 3, past both rotation updates. -/
theorem rotation_updates_before_render_witness :
    (animateTickRun (setupScene 1000 500)).2.get? 1 =
        some AnimEvent.updateRotationX ∧
      (3 : Nat) ≤ 3 :=
  ⟨(rotation_updates_before_render (setupScene 1000 500)).2.1,
    (rotation_updates_before_render (setupScene 1000 500)).2.2.2.2 3 _ _ rfl⟩

/-- C9: registration observes, in order, exactly the regions whose ref is
attached; a detached ref is skipped and the fold is total, so nothing
fails. -/
theorem observe_skips_detached (refs : List (String × Option Nat)) :
    observeRegions refs = refs.filterMap Prod.snd := by
  have go : ∀ (t : List (String × Option Nat)) (acc : List Nat),
      (t.foldl
        (fun acc r => match r.2 with
          | some el => acc ++ [el]
          | none => acc)
        acc) = acc ++ t.filterMap Prod.snd := by
    intro t
    induction t with
    | nil => simp
    | cons r u ih =>
      intro acc
      rcases hr : r.2 with _ | el <;>
        simp [List.filterMap_cons, hr, ih]
  simpa using go refs []

/-- C10: the mobile-menu toggle is boolean negation — two consecutive
activations restore the prior state — and a mobile menu link click closes
the menu regardless of the prior state. -/
theorem mobile_menu_toggle_involutive (b : Bool) :
    toggleMobileMenu (toggleMobileMenu b) = b ∧ mobileLinkClick b = false := by
  cases b <;> simp [toggleMobileMenu, mobileLinkClick]

end Portfolio
